import Mathlib

/-!
Shallow embedding of the vigilante checkpoint Monitor (monitor/monitor.go).

The Monitor tracks a current epoch, verifies BTC checkpoints against the
Babylon counterpart, keeps a bookkeeping checklist of verified or diverging
checkpoints for liveness alerting, and advances the epoch on success.

External collaborators (the BLS multi-signature primitive, the Babylon
querier, the BTC scanner and the bech32 address parsing of the cosmos sdk)
are modelled as oracle functions gathered in an `Env` record; everything
else is translated directly from the Go source.
-/

namespace Vigilante

/-- RawCheckpoint models checkpointingtypes.RawCheckpoint: the epoch number
and the last commit hash digest (the fields the Monitor inspects). -/
structure RawCheckpoint where
  epochNum : Nat
  lastCommitHash : Nat
  deriving DecidableEq, Repr

/-- CheckpointRecord models types.CheckpointRecord: a raw checkpoint plus
the BTC height at which it was first seen. -/
structure CheckpointRecord where
  rawCheckpoint : RawCheckpoint
  firstSeenBtcHeight : Nat
  deriving DecidableEq, Repr

/-- NewCheckpointRecord models types.NewCheckpointRecord. -/
def NewCheckpointRecord (raw : RawCheckpoint) (height : Nat) : CheckpointRecord :=
  { rawCheckpoint := raw, firstSeenBtcHeight := height }

/-- ValidatorWithBlsKey models one entry of
checkpointingtypes.ValidatorWithBlsKeySet: a bech32 validator address plus
opaque BLS key material. -/
structure ValidatorWithBlsKey where
  validatorAddress : String
  blsPubKey : Nat
  deriving DecidableEq, Repr

/-- EpochInfo models types.EpochInfo: the epoch number together with the
validator set used for multi-signature verification. -/
structure EpochInfo where
  epochNumber : Nat
  valSet : List ValidatorWithBlsKey
  deriving DecidableEq, Repr

/-- GetEpochNumber models EpochInfo.GetEpochNumber. -/
def EpochInfo.GetEpochNumber (e : EpochInfo) : Nat := e.epochNumber

/-- BlockHeader models wire.BlockHeader by its block hash, the only datum
the Monitor derives from it. -/
structure BlockHeader where
  blockHash : Nat
  deriving DecidableEq, Repr

/-- Env gathers the external collaborators of the Monitor as oracles:
the BLS multi-signature verification capability of an EpochInfo
(EpochInfo.VerifyMultiSig, delegated cryptography), and the Babylon
querier endpoints. An Option result of `none` models a query error. -/
structure Env where
  verifyMultiSig : EpochInfo → RawCheckpoint → Bool
  queryRawCheckpoint : Nat → Option RawCheckpoint
  queryInfoForNextEpoch : Nat → Option EpochInfo
  containsBTCHeader : Nat → Option Bool

/-- VerifyError enumerates the non-success outcomes of VerifyCheckpoint,
one constructor per return site in the Go source. -/
inductive VerifyError where
  | invalidEpochNum
  | invalidBtcCkptBlsSig
  | queryFailure
  | invalidBbnCkptBlsSig
  | inconsistentLastCommitHash
  deriving DecidableEq, Repr

/-- HandlerError enumerates the non-nil errors returned by
handleNewConfirmedCheckpoint: the fork signal wrapping
ErrInconsistentLastCommitHash, and the epoch-update failure. -/
inductive HandlerError where
  | verificationFailedInconsistentHash
  | updateEpochInfoFailed
  deriving DecidableEq, Repr

/-- HeaderError enumerates the non-nil errors of checkHeaderConsistency. -/
inductive HeaderError where
  | queryError
  | headerNotContained
  deriving DecidableEq, Repr

/-- Monitor models the mutable state of the Go Monitor struct: the liveness
checker flag of the config, the current epoch info, the checkpoint
checklist (bookkeeper contents) and the atomic started flag. -/
structure Monitor where
  cfgLivenessChecker : Bool
  curEpoch : EpochInfo
  checkpointChecklist : List CheckpointRecord
  started : Bool
  deriving DecidableEq, Repr

/-- GetCurrentEpoch models Monitor.GetCurrentEpoch. -/
def Monitor.GetCurrentEpoch (m : Monitor) : Nat :=
  m.curEpoch.GetEpochNumber

/-- VerifyCheckpoint models Monitor.VerifyCheckpoint: epoch-number check,
BLS check of the BTC checkpoint, query of the Babylon checkpoint at the
same epoch, BLS check of that checkpoint, and the last-commit-hash
consistency check; `none` is the nil (success) return. -/
def Monitor.VerifyCheckpoint (m : Monitor) (env : Env) (btcCkpt : RawCheckpoint) :
    Option VerifyError :=
  if m.GetCurrentEpoch ≠ btcCkpt.epochNum then
    some .invalidEpochNum
  else if env.verifyMultiSig m.curEpoch btcCkpt = false then
    some .invalidBtcCkptBlsSig
  else
    match env.queryRawCheckpoint btcCkpt.epochNum with
    | none => some .queryFailure
    | some bbnCkpt =>
      if env.verifyMultiSig m.curEpoch bbnCkpt = false then
        some .invalidBbnCkptBlsSig
      else if bbnCkpt.lastCommitHash ≠ btcCkpt.lastCommitHash then
        some .inconsistentLastCommitHash
      else
        none

/-- Modelled from the spec: types.CheckpointsBookkeeper.Add is outside
src/ (only its call site is); per the spec section 4.3 it appends the
record to the collection. -/
def CheckpointsBookkeeperAdd (checklist : List CheckpointRecord)
    (record : CheckpointRecord) : List CheckpointRecord :=
  checklist ++ [record]

/-- addCheckpointToCheckList models Monitor.addCheckpointToCheckList:
build a fresh record from the raw checkpoint and first-seen height and
add it to the bookkeeper. -/
def Monitor.addCheckpointToCheckList (m : Monitor) (ckpt : CheckpointRecord) : Monitor :=
  { m with checkpointChecklist :=
      (CheckpointsBookkeeperAdd m.checkpointChecklist
        (NewCheckpointRecord ckpt.rawCheckpoint ckpt.firstSeenBtcHeight)) }

/-- UpdateEpochInfo models Monitor.UpdateEpochInfo: query info of the
given epoch; on success replace curEpoch, on failure (`none`) leave the
Monitor unchanged and return the error. -/
def Monitor.UpdateEpochInfo (m : Monitor) (env : Env) (epoch : Nat) :
    Monitor × Option HandlerError :=
  match env.queryInfoForNextEpoch epoch with
  | none => (m, some .updateEpochInfoFailed)
  | some ei => ({ m with curEpoch := ei }, none)

/-- handleNewConfirmedCheckpoint models Monitor.handleNewConfirmedCheckpoint:
on ErrInconsistentLastCommitHash record the checkpoint (liveness enabled)
and surface the error; on any other verification failure skip with nil;
on success record the checkpoint (liveness enabled) and advance to the
next epoch via UpdateEpochInfo. -/
def Monitor.handleNewConfirmedCheckpoint (m : Monitor) (env : Env)
    (ckpt : CheckpointRecord) : Monitor × Option HandlerError :=
  match m.VerifyCheckpoint env ckpt.rawCheckpoint with
  | some e =>
    if e = .inconsistentLastCommitHash then
      let m1 := if m.cfgLivenessChecker then m.addCheckpointToCheckList ckpt else m
      (m1, some .verificationFailedInconsistentHash)
    else
      (m, none)
  | none =>
    let m1 := if m.cfgLivenessChecker then m.addCheckpointToCheckList ckpt else m
    m1.UpdateEpochInfo env (m1.GetCurrentEpoch + 1)

/-- checkHeaderConsistency models Monitor.checkHeaderConsistency: ask
whether the Babylon light client contains the BTC header hash. -/
def Monitor.checkHeaderConsistency (_m : Monitor) (env : Env) (header : BlockHeader) :
    Option HeaderError :=
  match env.containsBTCHeader header.blockHash with
  | none => some .queryError
  | some contains => if contains then none else some .headerNotContained

/-- handleNewConfirmedHeader models Monitor.handleNewConfirmedHeader. -/
def Monitor.handleNewConfirmedHeader (m : Monitor) (env : Env) (header : BlockHeader) :
    Option HeaderError :=
  m.checkHeaderConsistency env header

/-- LoopEvent is one arm of the select statement of the Start loop: the
quit signal, a confirmed BTC header, or a confirmed checkpoint. -/
inductive LoopEvent where
  | quitSignal
  | headerEvent (h : BlockHeader)
  | checkpointEvent (c : CheckpointRecord)
  deriving Repr

/-- loopStep models one iteration of the Start event loop (the body of
the select): the quit signal stores false into started; a header event
runs handleNewConfirmedHeader, whose error is only logged; a checkpoint
event runs handleNewConfirmedCheckpoint, whose error is only logged. -/
def Monitor.loopStep (m : Monitor) (env : Env) (ev : LoopEvent) : Monitor :=
  match ev with
  | .quitSignal => { m with started := false }
  | .headerEvent h =>
    let _ := m.handleNewConfirmedHeader env h
    m
  | .checkpointEvent c => (m.handleNewConfirmedCheckpoint env c).1

/-- Start models the entry guard of Monitor.Start (before the loop): if
the started flag is already set, return immediately without launching
anything; otherwise store true and launch the scanner and loop. The
boolean of the result records whether the scanner and loop were
launched. -/
def Monitor.Start (m : Monitor) : Monitor × Bool :=
  if m.started then (m, false)
  else ({ m with started := true }, true)

/-- addrKey is the sort key of GetSortedValSet: the big-endian unsigned
numeric interpretation of the parsed validator address. It is only
applied to addresses that parse; the default 0 is never reached there. -/
def addrKey (parse : String → Option Nat) (v : ValidatorWithBlsKey) : Nat :=
  (parse v.validatorAddress).getD 0

/-- addrLe is the non-strict ordering induced by the strict comparator of
the Go sort closure (key i < key j). -/
def addrLe (parse : String → Option Nat) (a b : ValidatorWithBlsKey) : Prop :=
  addrKey parse a ≤ addrKey parse b

instance (parse : String → Option Nat) : DecidableRel (addrLe parse) :=
  fun a b => inferInstanceAs (Decidable (addrKey parse a ≤ addrKey parse b))

instance (parse : String → Option Nat) : IsTotal ValidatorWithBlsKey (addrLe parse) :=
  ⟨fun a b => Nat.le_total (addrKey parse a) (addrKey parse b)⟩

instance (parse : String → Option Nat) : IsTrans ValidatorWithBlsKey (addrLe parse) :=
  ⟨fun _ _ _ h1 h2 => Nat.le_trans h1 h2⟩

/-- GetSortedValSet models the vigilante GetSortedValSet. The bech32
parsing (sdk.ValAddressFromBech32 composed with sdk.BigEndianToUint64) is
the oracle `parse`. The comparator panics when either compared address
fails to parse; since a comparison sort of two or more elements compares
every element at least once, the panic (modelled as `none`) occurs iff
the set has at least two entries and some address fails to parse, while
a set of at most one entry is returned unchanged with no comparison
made. On an all-parseable set the result is the sequence sorted by
ascending numeric address value, modelled by the deterministic stable
insertion sort. -/
def GetSortedValSet (parse : String → Option Nat)
    (valSet : List ValidatorWithBlsKey) : Option (List ValidatorWithBlsKey) :=
  if valSet.length ≤ 1 then
    some valSet
  else if valSet.all (fun v => (parse v.validatorAddress).isSome) then
    some (valSet.insertionSort (addrLe parse))
  else
    none

/-! Concrete fixtures used by the closed witness theorems. -/

/-- Sample epoch info at epoch 10. -/
def epoch10 : EpochInfo := { epochNumber := 10, valSet := [] }

/-- Sample Monitor at epoch 10 with liveness tracking enabled, not yet
started. -/
def mon10 : Monitor :=
  { cfgLivenessChecker := true, curEpoch := epoch10,
    checkpointChecklist := [], started := false }

/-- Sample Monitor that is already started. -/
def monStarted : Monitor := { mon10 with started := true }

/-- Sample checkpoint at epoch 10 with commit hash 7. -/
def ckpt10 : RawCheckpoint := { epochNum := 10, lastCommitHash := 7 }

/-- Sample checkpoint at epoch 10 with commit hash 8. -/
def ckpt10b : RawCheckpoint := { epochNum := 10, lastCommitHash := 8 }

/-- Sample checkpoint at epoch 5. -/
def ckpt5 : RawCheckpoint := { epochNum := 5, lastCommitHash := 7 }

/-- Well-behaved oracle: every signature valid, the Babylon checkpoint of
every epoch carries commit hash 7, and epoch queries return info of the
requested epoch. -/
def envGood : Env :=
  { verifyMultiSig := fun _ _ => true,
    queryRawCheckpoint := fun n => some { epochNum := n, lastCommitHash := 7 },
    queryInfoForNextEpoch := fun n => some { epochNumber := n, valSet := [] },
    containsBTCHeader := fun _ => some true }

/-- Failing oracle: every signature invalid and every query fails. -/
def envBad : Env :=
  { verifyMultiSig := fun _ _ => false,
    queryRawCheckpoint := fun _ => none,
    queryInfoForNextEpoch := fun _ => none,
    containsBTCHeader := fun _ => none }

/-- Sample address parser mapping a string to its length. -/
def parseLen : String → Option Nat := fun s => some s.length

/-- Sample address parser that fails on every address. -/
def parseNone : String → Option Nat := fun _ => none

/-- Sample validator with a short address (key 1 under parseLen). -/
def valA : ValidatorWithBlsKey := { validatorAddress := "a", blsPubKey := 2 }

/-- Sample validator with a longer address (key 2 under parseLen). -/
def valB : ValidatorWithBlsKey := { validatorAddress := "bb", blsPubKey := 1 }

/-- Sample validator whose address no parser of this file accepts. -/
def valBad : ValidatorWithBlsKey := { validatorAddress := "bad", blsPubKey := 0 }

/-- C1: VerifyCheckpoint succeeds iff the candidate epoch equals the
current epoch, the BLS multi-signature of the candidate is valid, the
Babylon checkpoint of the same epoch is obtained and its multi-signature
is valid, and the two last commit hashes agree; and whenever both
signatures are valid but the hashes differ the result is exactly the
inconsistent-last-commit-hash failure. -/
theorem verifyCheckpoint_success_iff (m : Monitor) (env : Env) (c : RawCheckpoint) :
    (m.VerifyCheckpoint env c = none ↔
      (m.GetCurrentEpoch = c.epochNum ∧ env.verifyMultiSig m.curEpoch c = true ∧
        ∃ b, env.queryRawCheckpoint c.epochNum = some b ∧
          env.verifyMultiSig m.curEpoch b = true ∧
          b.lastCommitHash = c.lastCommitHash)) ∧
    (∀ b, m.GetCurrentEpoch = c.epochNum →
      env.verifyMultiSig m.curEpoch c = true →
      env.queryRawCheckpoint c.epochNum = some b →
      env.verifyMultiSig m.curEpoch b = true →
      b.lastCommitHash ≠ c.lastCommitHash →
      m.VerifyCheckpoint env c = some .inconsistentLastCommitHash) := by
  constructor
  · by_cases h1 : m.GetCurrentEpoch = c.epochNum
    · by_cases h2 : env.verifyMultiSig m.curEpoch c = true
      · cases hq : env.queryRawCheckpoint c.epochNum with
        | none => simp [Monitor.VerifyCheckpoint, h1, h2, hq]
        | some b =>
          by_cases h3 : env.verifyMultiSig m.curEpoch b = true
          · by_cases h4 : b.lastCommitHash = c.lastCommitHash
            · simp [Monitor.VerifyCheckpoint, h1, h2, hq, h3, h4]
            · simp [Monitor.VerifyCheckpoint, h1, h2, hq, h3, h4]
          · simp [Monitor.VerifyCheckpoint, h1, h2, hq, h3]
      · simp [Monitor.VerifyCheckpoint, h1, h2]
    · simp [Monitor.VerifyCheckpoint, h1]
  · intro b h1 h2 h3 h4 h5
    simp [Monitor.VerifyCheckpoint, h1, h2, h3, h4, h5]

/-- Witness for verifyCheckpoint_success_iff: with a well-behaved oracle
at epoch 10, the matching checkpoint passes and the checkpoint with a
diverging hash yields the inconsistent-last-commit-hash failure. -/
theorem verifyCheckpoint_success_iff_witness :
    mon10.VerifyCheckpoint envGood ckpt10 = none ∧
    mon10.VerifyCheckpoint envGood ckpt10b = some .inconsistentLastCommitHash :=
  ⟨(verifyCheckpoint_success_iff mon10 envGood ckpt10).1.mpr
      ⟨rfl, rfl, { epochNum := 10, lastCommitHash := 7 }, rfl, rfl, rfl⟩,
    (verifyCheckpoint_success_iff mon10 envGood ckpt10b).2
      { epochNum := 10, lastCommitHash := 7 } rfl rfl rfl rfl (by decide)⟩

/-- C4: VerifyCheckpoint returns the invalid-epoch-number failure iff the
candidate epoch differs from the current epoch, and on a mismatch the
result does not depend on any oracle (no signature verification and no
Babylon query is consulted). -/
theorem verifyCheckpoint_invalidEpochNum_iff (m : Monitor) (env env2 : Env)
    (c : RawCheckpoint) :
    (m.VerifyCheckpoint env c = some .invalidEpochNum ↔
      m.GetCurrentEpoch ≠ c.epochNum) ∧
    (m.GetCurrentEpoch ≠ c.epochNum →
      m.VerifyCheckpoint env c = m.VerifyCheckpoint env2 c) := by
  constructor
  · by_cases h1 : m.GetCurrentEpoch = c.epochNum
    · by_cases h2 : env.verifyMultiSig m.curEpoch c = true
      · cases hq : env.queryRawCheckpoint c.epochNum with
        | none => simp [Monitor.VerifyCheckpoint, h1, h2, hq]
        | some b =>
          by_cases h3 : env.verifyMultiSig m.curEpoch b = true
          · by_cases h4 : b.lastCommitHash = c.lastCommitHash
            · simp [Monitor.VerifyCheckpoint, h1, h2, hq, h3, h4]
            · simp [Monitor.VerifyCheckpoint, h1, h2, hq, h3, h4]
          · simp [Monitor.VerifyCheckpoint, h1, h2, hq, h3]
      · simp [Monitor.VerifyCheckpoint, h1, h2]
    · simp [Monitor.VerifyCheckpoint, h1]
  · intro h1
    simp [Monitor.VerifyCheckpoint, h1]

/-- Witness for verifyCheckpoint_invalidEpochNum_iff: a checkpoint at
epoch 5 against a Monitor at epoch 10 fails with invalid epoch number,
identically under the good and the failing oracle. -/
theorem verifyCheckpoint_invalidEpochNum_iff_witness :
    mon10.VerifyCheckpoint envGood ckpt5 = some .invalidEpochNum ∧
    mon10.VerifyCheckpoint envGood ckpt5 = mon10.VerifyCheckpoint envBad ckpt5 :=
  ⟨(verifyCheckpoint_invalidEpochNum_iff mon10 envGood envBad ckpt5).1.mpr (by decide),
    (verifyCheckpoint_invalidEpochNum_iff mon10 envGood envBad ckpt5).2 (by decide)⟩

/-- C10: handleNewConfirmedCheckpoint returns a non-nil error exactly when
verification fails with the inconsistent-last-commit-hash failure or when
verification succeeds and the epoch-info query of the next epoch fails;
every other verification failure is skipped with a nil return. -/
theorem handleCheckpoint_error_iff (m : Monitor) (env : Env) (ckpt : CheckpointRecord) :
    ((m.handleNewConfirmedCheckpoint env ckpt).2 ≠ none ↔
      (m.VerifyCheckpoint env ckpt.rawCheckpoint = some .inconsistentLastCommitHash ∨
        (m.VerifyCheckpoint env ckpt.rawCheckpoint = none ∧
          env.queryInfoForNextEpoch (m.GetCurrentEpoch + 1) = none))) ∧
    (∀ e, m.VerifyCheckpoint env ckpt.rawCheckpoint = some e →
      e ≠ .inconsistentLastCommitHash →
      (m.handleNewConfirmedCheckpoint env ckpt).2 = none) := by
  constructor
  · cases hv : m.VerifyCheckpoint env ckpt.rawCheckpoint with
    | some e =>
      by_cases he : e = VerifyError.inconsistentLastCommitHash
      · subst he
        simp [Monitor.handleNewConfirmedCheckpoint, hv]
      · simp [Monitor.handleNewConfirmedCheckpoint, hv, he]
    | none =>
      cases hq : env.queryInfoForNextEpoch (m.curEpoch.epochNumber + 1) with
      | none =>
        by_cases hl : m.cfgLivenessChecker <;>
          simp [Monitor.handleNewConfirmedCheckpoint, hv, hl, Monitor.UpdateEpochInfo,
            Monitor.addCheckpointToCheckList, Monitor.GetCurrentEpoch,
            EpochInfo.GetEpochNumber, hq]
      | some ei =>
        by_cases hl : m.cfgLivenessChecker <;>
          simp [Monitor.handleNewConfirmedCheckpoint, hv, hl, Monitor.UpdateEpochInfo,
            Monitor.addCheckpointToCheckList, Monitor.GetCurrentEpoch,
            EpochInfo.GetEpochNumber, hq]
  · intro e hv he
    simp [Monitor.handleNewConfirmedCheckpoint, hv, he]

/-- Witness for handleCheckpoint_error_iff: under the failing oracle the
BLS check fails, and the handler returns nil. -/
theorem handleCheckpoint_error_iff_witness :
    (mon10.handleNewConfirmedCheckpoint envBad
      { rawCheckpoint := ckpt10, firstSeenBtcHeight := 100 }).2 = none :=
  (handleCheckpoint_error_iff mon10 envBad
      { rawCheckpoint := ckpt10, firstSeenBtcHeight := 100 }).2
    .invalidBtcCkptBlsSig rfl (by decide)

/-- C2: provided epoch-info queries return info of the requested epoch,
one handled checkpoint event either advances the current epoch by exactly
one (iff verification succeeded and the query of the next epoch info
succeeded) or leaves it unchanged; the cursor never decreases and never
skips a number. -/
theorem handleCheckpoint_epoch_advance (m : Monitor) (env : Env) (ckpt : CheckpointRecord)
    (hq : ∀ ei, env.queryInfoForNextEpoch (m.GetCurrentEpoch + 1) = some ei →
      ei.epochNumber = m.GetCurrentEpoch + 1) :
    ((m.handleNewConfirmedCheckpoint env ckpt).1.GetCurrentEpoch
        = m.GetCurrentEpoch + 1 ∨
      (m.handleNewConfirmedCheckpoint env ckpt).1.GetCurrentEpoch
        = m.GetCurrentEpoch) ∧
    ((m.handleNewConfirmedCheckpoint env ckpt).1.GetCurrentEpoch
        = m.GetCurrentEpoch + 1 ↔
      (m.VerifyCheckpoint env ckpt.rawCheckpoint = none ∧
        (env.queryInfoForNextEpoch (m.GetCurrentEpoch + 1)).isSome = true)) := by
  cases hv : m.VerifyCheckpoint env ckpt.rawCheckpoint with
  | some e =>
    by_cases he : e = VerifyError.inconsistentLastCommitHash <;>
      by_cases hl : m.cfgLivenessChecker <;>
      simp [Monitor.handleNewConfirmedCheckpoint, hv, he, hl,
        Monitor.addCheckpointToCheckList, Monitor.GetCurrentEpoch,
        EpochInfo.GetEpochNumber]
  | none =>
    cases hq2 : env.queryInfoForNextEpoch (m.curEpoch.epochNumber + 1) with
    | none =>
      by_cases hl : m.cfgLivenessChecker <;>
        simp [Monitor.handleNewConfirmedCheckpoint, hv, hl, Monitor.UpdateEpochInfo,
          Monitor.addCheckpointToCheckList, Monitor.GetCurrentEpoch,
          EpochInfo.GetEpochNumber, hq2]
    | some ei =>
      have hei : ei.epochNumber = m.GetCurrentEpoch + 1 := hq ei hq2
      by_cases hl : m.cfgLivenessChecker <;>
        simp [Monitor.handleNewConfirmedCheckpoint, hv, hl, Monitor.UpdateEpochInfo,
          Monitor.addCheckpointToCheckList, Monitor.GetCurrentEpoch,
          EpochInfo.GetEpochNumber, hq2, hei]

/-- Witness for handleCheckpoint_epoch_advance: a valid checkpoint at
epoch 10 under the well-behaved oracle advances the Monitor to epoch 11. -/
theorem handleCheckpoint_epoch_advance_witness :
    (mon10.handleNewConfirmedCheckpoint envGood
        { rawCheckpoint := ckpt10, firstSeenBtcHeight := 100 }).1.GetCurrentEpoch
      = mon10.GetCurrentEpoch + 1 :=
  (handleCheckpoint_epoch_advance mon10 envGood
      { rawCheckpoint := ckpt10, firstSeenBtcHeight := 100 }
      (fun ei h => by injection h with h1; subst h1; rfl)).2.mpr ⟨rfl, rfl⟩

/-- C3: one handled checkpoint event appends exactly the freshly built
record to the checklist iff the liveness checker is enabled and the
verification result was success or the inconsistent-last-commit-hash
failure; otherwise the checklist is unchanged. -/
theorem handleCheckpoint_checklist (m : Monitor) (env : Env) (ckpt : CheckpointRecord) :
    (m.handleNewConfirmedCheckpoint env ckpt).1.checkpointChecklist =
      if m.cfgLivenessChecker = true ∧
          (m.VerifyCheckpoint env ckpt.rawCheckpoint = none ∨
            m.VerifyCheckpoint env ckpt.rawCheckpoint
              = some .inconsistentLastCommitHash)
        then m.checkpointChecklist ++
          [NewCheckpointRecord ckpt.rawCheckpoint ckpt.firstSeenBtcHeight]
        else m.checkpointChecklist := by
  cases hv : m.VerifyCheckpoint env ckpt.rawCheckpoint with
  | some e =>
    by_cases he : e = VerifyError.inconsistentLastCommitHash <;>
      by_cases hl : m.cfgLivenessChecker <;>
      simp [Monitor.handleNewConfirmedCheckpoint, hv, he, hl,
        Monitor.addCheckpointToCheckList, CheckpointsBookkeeperAdd]
  | none =>
    cases hq : env.queryInfoForNextEpoch (m.curEpoch.epochNumber + 1) with
    | none =>
      by_cases hl : m.cfgLivenessChecker <;>
        simp [Monitor.handleNewConfirmedCheckpoint, hv, hl, Monitor.UpdateEpochInfo,
          Monitor.addCheckpointToCheckList, CheckpointsBookkeeperAdd,
          Monitor.GetCurrentEpoch, EpochInfo.GetEpochNumber, hq]
    | some ei =>
      by_cases hl : m.cfgLivenessChecker <;>
        simp [Monitor.handleNewConfirmedCheckpoint, hv, hl, Monitor.UpdateEpochInfo,
          Monitor.addCheckpointToCheckList, CheckpointsBookkeeperAdd,
          Monitor.GetCurrentEpoch, EpochInfo.GetEpochNumber, hq]

/-- C7: processing a header or checkpoint event leaves the started flag
unchanged whatever the handler outcome, so the loop stays running and
selects the next event; the quit signal is the transition that clears the
flag and ends the loop. -/
theorem loopStep_started (m : Monitor) (env : Env) :
    (∀ h, (m.loopStep env (.headerEvent h)).started = m.started) ∧
    (∀ c, (m.loopStep env (.checkpointEvent c)).started = m.started) ∧
    (m.loopStep env .quitSignal).started = false := by
  refine ⟨fun h => rfl, fun c => ?_, rfl⟩
  show (m.handleNewConfirmedCheckpoint env c).1.started = m.started
  cases hv : m.VerifyCheckpoint env c.rawCheckpoint with
  | some e =>
    by_cases he : e = VerifyError.inconsistentLastCommitHash <;>
      by_cases hl : m.cfgLivenessChecker <;>
      simp [Monitor.handleNewConfirmedCheckpoint, hv, he, hl,
        Monitor.addCheckpointToCheckList]
  | none =>
    cases hq : env.queryInfoForNextEpoch (m.curEpoch.epochNumber + 1) with
    | none =>
      by_cases hl : m.cfgLivenessChecker <;>
        simp [Monitor.handleNewConfirmedCheckpoint, hv, hl, Monitor.UpdateEpochInfo,
          Monitor.addCheckpointToCheckList, Monitor.GetCurrentEpoch,
          EpochInfo.GetEpochNumber, hq]
    | some ei =>
      by_cases hl : m.cfgLivenessChecker <;>
        simp [Monitor.handleNewConfirmedCheckpoint, hv, hl, Monitor.UpdateEpochInfo,
          Monitor.addCheckpointToCheckList, Monitor.GetCurrentEpoch,
          EpochInfo.GetEpochNumber, hq]

/-- C9: Start invoked while the started flag is set returns immediately
with the Monitor identical (epoch, checklist and flag unchanged) and the
launch indicator false: no second event loop and no second scanner
start. -/
theorem start_idempotent (m : Monitor) (h : m.started = true) :
    m.Start = (m, false) := by
  simp [Monitor.Start, h]

/-- Witness for start_idempotent at a concrete started Monitor. -/
theorem start_idempotent_witness :
    monStarted.Start = (monStarted, false) :=
  start_idempotent monStarted rfl

/-- C5: canonicalization is deterministic and idempotent and produces a
sequence whose adjacent entries have non-decreasing numeric address
value: whenever GetSortedValSet returns a sequence, running it again on
that sequence returns the identical sequence, and the sequence is
chained by the non-strict address-key order. -/
theorem getSortedValSet_idem_sorted (parse : String → Option Nat)
    (vs out : List ValidatorWithBlsKey)
    (h : GetSortedValSet parse vs = some out) :
    GetSortedValSet parse out = some out ∧
    List.Chain' (addrLe parse) out := by
  unfold GetSortedValSet at h ⊢
  by_cases h1 : vs.length ≤ 1
  · rw [if_pos h1] at h
    injection h with h2
    subst h2
    refine ⟨?_, ?_⟩
    · rw [if_pos h1]
    · match vs, h1 with
      | [], _ => exact List.chain'_nil
      | [a], _ => exact List.chain'_singleton a
  · rw [if_neg h1] at h
    by_cases h2 : vs.all (fun v => (parse v.validatorAddress).isSome) = true
    · rw [if_pos h2] at h
      injection h with h3
      subst h3
      have hsorted : List.Sorted (addrLe parse) (vs.insertionSort (addrLe parse)) :=
        List.sorted_insertionSort (addrLe parse) vs
      have hperm : (vs.insertionSort (addrLe parse)).Perm vs :=
        List.perm_insertionSort (addrLe parse) vs
      refine ⟨?_, List.Pairwise.chain' hsorted⟩
      have hlen : ¬ (vs.insertionSort (addrLe parse)).length ≤ 1 := by
        rw [hperm.length_eq]; exact h1
      rw [if_neg hlen]
      have hall : (vs.insertionSort (addrLe parse)).all
          (fun v => (parse v.validatorAddress).isSome) = true := by
        rw [List.all_eq_true] at h2 ⊢
        intro v hv
        exact h2 v (hperm.mem_iff.mp hv)
      rw [if_pos hall, List.Sorted.insertionSort_eq hsorted]
    · rw [if_neg h2] at h
      exact absurd h (by simp)

/-- Witness for getSortedValSet_idem_sorted: sorting a concrete two-entry
set, resorting the output reproduces it and it is chained by the key
order. -/
theorem getSortedValSet_idem_sorted_witness :
    GetSortedValSet parseLen [valA, valB] = some [valA, valB] ∧
    List.Chain' (addrLe parseLen) [valA, valB] :=
  getSortedValSet_idem_sorted parseLen [valB, valA] [valA, valB] (by decide)

/-- C8 counterexample: a one-entry set whose only address fails to parse
is returned unchanged rather than aborting — the sort of a single
element performs no comparison, so the parsing failure inside the
comparator never fires. -/
theorem getSortedValSet_singleton_malformed_no_abort :
    parseNone valBad.validatorAddress = none ∧
    GetSortedValSet parseNone [valBad] = some [valBad] :=
  ⟨rfl, rfl⟩

/-- C8 (amended): on a set of at least two entries, any unparseable
address makes canonicalization abort fatally (modelled as `none`), and a
set whose addresses all parse is canonicalized without aborting. -/
theorem getSortedValSet_malformed_fatal (parse : String → Option Nat)
    (vs : List ValidatorWithBlsKey) :
    (2 ≤ vs.length → (∃ v ∈ vs, parse v.validatorAddress = none) →
      GetSortedValSet parse vs = none) ∧
    ((∀ v ∈ vs, (parse v.validatorAddress).isSome = true) →
      (GetSortedValSet parse vs).isSome = true) := by
  unfold GetSortedValSet
  constructor
  · intro hlen hex
    obtain ⟨v, hv, hnone⟩ := hex
    have h1 : ¬ vs.length ≤ 1 := by omega
    rw [if_neg h1]
    have h2 : ¬ vs.all (fun v => (parse v.validatorAddress).isSome) = true := by
      rw [List.all_eq_true]
      intro hall
      have := hall v hv
      rw [hnone] at this
      exact absurd this (by simp)
    rw [if_neg h2]
  · intro hall
    by_cases h1 : vs.length ≤ 1
    · rw [if_pos h1]; rfl
    · rw [if_neg h1, if_pos (List.all_eq_true.mpr hall)]; rfl

/-- Witness for getSortedValSet_malformed_fatal: a two-entry set with an
unparseable address aborts, and a fully parseable two-entry set is
canonicalized. -/
theorem getSortedValSet_malformed_fatal_witness :
    GetSortedValSet parseNone [valBad, valA] = none ∧
    (GetSortedValSet parseLen [valA, valB]).isSome = true :=
  ⟨(getSortedValSet_malformed_fatal parseNone [valBad, valA]).1 (by decide)
      ⟨valBad, by decide, rfl⟩,
    (getSortedValSet_malformed_fatal parseLen [valA, valB]).2 (by decide)⟩

end Vigilante
